import Mathlib

/-!
# Verification of `hessian_eigenthings/lanczos.py`

A shallow embedding of the `lanczos` driver from
`pytorch-hessian-eigenthings`.  The driver adapts an implicit linear
operator (a thing with a `size` attribute and an `apply` method) to the
calling convention of the external restarted-Lanczos eigensolver
(`scipy.sparse.linalg.eigsh`), manages precision and device placement of
the vectors crossing the numpy/torch boundary, and reshapes the solver's
output into the caller's conventions.

Modelling choices:
* numeric values are rationals (`ℚ`); the optional reduced-precision
  (fp16) cast is modelled by an explicit elementwise rounding function;
* a torch tensor is a value vector together with a device tag and a
  half-precision tag; numpy arrays are plain value vectors;
* the external solver `eigsh` is an abstract parameter: it chooses how
  many times to invoke the matrix-vector callback, which probe vector to
  feed it next (possibly depending on the earlier responses), and how to
  produce the final eigenvalue array and column-major eigenvector matrix
  from the responses;
* the python exceptions that can escape `lanczos` are reified in an
  error type: the `TypeError`/`IndexError` raised on an unusable `size`
  attribute becomes `invalidOperatorShape`, and an exception raised by
  the operator's own `apply` is carried intact as `operatorFailure e`;
* the driver's observable behaviour is an `Outcome` record: the returned
  value (or escaping exception), the trace of advisory warnings, random
  draws and callback invocations, the argument record passed to the
  external solver (if the call was reached), and the final value of the
  local `init_vec` variable at the point of the solver call.
-/

namespace HessianEigenthings

/-- A host-resident numeric array (numpy 1-d array), values as rationals. -/
abbrev Vec := List ℚ

/-- A matrix as a list of rows. -/
abbrev Mat := List (List ℚ)

/-- Compute device of a torch tensor. -/
inductive Device where
  | cpu : Device
  | cuda : Device
deriving DecidableEq, Repr

/-- A torch tensor: a value vector plus a device tag and a
half-precision tag. -/
structure Tensor where
  data : Vec
  device : Device
  half : Bool
deriving DecidableEq, Repr

/-- Model of `torch.from_numpy`: wraps a host array as a cpu tensor. -/
def Tensor.fromNumpy (x : Vec) : Tensor :=
  { data := x, device := Device.cpu, half := false }

/-- Model of `.cuda()`: relocate to accelerator memory (values unchanged). -/
def Tensor.toCuda (t : Tensor) : Tensor :=
  { t with device := Device.cuda }

/-- Model of `.cpu()`: relocate to host memory (values unchanged). -/
def Tensor.toCpu (t : Tensor) : Tensor :=
  { t with device := Device.cpu }

/-- Absolute value on the rationals by explicit case split. -/
def qabs (q : ℚ) : ℚ := if q < 0 then -q else q

/-- Powers of two with integer exponent, built with `mkRat` so that the
value evaluates inside the kernel. -/
def pow2 : Int → ℚ
  | Int.ofNat k => mkRat ((2 ^ k : Nat) : Int) 1
  | Int.negSucc k => mkRat 1 (2 ^ (k + 1))

/-- Fuel-based binary logarithm on naturals (structural recursion, so
the kernel can evaluate it). -/
def log2Aux : Nat → Nat → Nat
  | 0, _ => 0
  | fuel + 1, n => if n ≥ 2 then log2Aux fuel (n / 2) + 1 else 0

/-- Binary logarithm (floor) of a natural number. -/
def natLog2 (n : Nat) : Nat := log2Aux n n

/-- Floor of the base-2 logarithm of a positive rational, computed from
the binary logarithms of numerator and denominator with a correction
step. -/
def floorLog2 (q : ℚ) : Int :=
  let e0 : Int := (natLog2 q.num.natAbs : Int) - (natLog2 q.den : Int)
  if q < pow2 e0 then e0 - 1
  else if q < pow2 (e0 + 1) then e0
  else e0 + 1

/-- Rounding of a rational to the IEEE-754 binary16 grid: round-half-up
to the nearest multiple of the unit in the last place for the value's
binade (11 significant bits, subnormals below `2^(-14)`), saturating at
the largest finite half-precision value `65504` instead of overflowing
to infinity.  The arithmetic is carried out on numerator and
denominator so the kernel can evaluate it. -/
def roundFp16 (q : ℚ) : ℚ :=
  if q = 0 then 0
  else
    let a : ℚ := qabs q
    let e0 : Int := floorLog2 a
    let e : Int := if e0 < -14 then -14 else e0
    let num : Int := a.num * ((2 ^ (10 - e).toNat : Nat) : Int)
    let den : Int := (a.den : Int) * ((2 ^ (e - 10).toNat : Nat) : Int)
    let m : Int := (2 * num + den).fdiv (2 * den)
    let r : ℚ := mkRat (m * ((2 ^ (e - 10).toNat : Nat) : Int)) (2 ^ (10 - e).toNat)
    let r' : ℚ := if (65504 : ℚ) < r then 65504 else r
    if q < 0 then -r' else r'

/-- Modelled from the spec: `hessian_eigenthings.utils.maybe_fp16` lives
in `hessian_eigenthings/utils.py`, which is not under `src/`; the spec
describes it as the reduced-precision leg of the bridge ("if
`use_reduced_precision` is set, casts to reduced precision", "may lose
mantissa bits by design").  On plain value vectors it is the elementwise
16-bit cast when the flag is set and the identity otherwise. -/
def maybe_fp16_vec (v : Vec) (fp16 : Bool) : Vec :=
  if fp16 then v.map roundFp16 else v

/-- Modelled from the spec: `maybe_fp16` on a torch tensor casts the
values to reduced precision and marks the tensor half-precision when the
flag is set; otherwise it returns the tensor untouched. -/
def Tensor.maybe_fp16 (t : Tensor) (fp16 : Bool) : Tensor :=
  if fp16 then { data := t.data.map roundFp16, device := t.device, half := true }
  else t

/-- The input leg of the precision/device bridge, as inlined in
`_scipy_apply` (lanczos.py lines 69–72): `torch.from_numpy`, then the
optional fp16 cast, then the optional move to the accelerator. -/
def to_operator_form (x : Vec) (use_gpu fp16 : Bool) : Tensor :=
  let t := Tensor.fromNumpy x
  let t := t.maybe_fp16 fp16
  if use_gpu then t.toCuda else t

/-- The output leg of the bridge, as inlined in `_scipy_apply`
(lanczos.py lines 74–75): the optional fp16 cast, then `.cpu().numpy()`. -/
def to_host_form (t : Tensor) (fp16 : Bool) : Vec :=
  ((t.maybe_fp16 fp16).toCpu).data

/-- A vector all of whose entries are exactly representable in the
16-bit format, i.e. fixed by the fp16 cast. -/
def Fp16Representable (v : Vec) : Prop :=
  v.map roundFp16 = v

/-- The declared `size` attribute of the caller's operator: a python
int, a shape-like sequence of ints, or something else entirely
(the failing case of the spec's `InvalidOperatorShape`). -/
inductive OperatorSize where
  | intSize (n : Int) : OperatorSize
  | shapeSize (dims : List Int) : OperatorSize
  | invalid : OperatorSize
deriving DecidableEq, Repr

/-- Lines 55–58 of lanczos.py: `size = operator.size` when the attribute
is an int, else `size = operator.size[0]`.  The subscript raises
(`TypeError` for a non-subscriptable value, `IndexError` for an empty
shape), which is the `InvalidOperatorShape` failure. -/
def resolveSize : OperatorSize → Except Unit Int
  | OperatorSize.intSize n => Except.ok n
  | OperatorSize.shapeSize (d :: _) => Except.ok d
  | OperatorSize.shapeSize [] => Except.error ()
  | OperatorSize.invalid => Except.error ()

/-- The caller-supplied implicit operator: a declared size, an
`apply : tensor → tensor` operation that may raise (`Except.error`),
and the rest of the object's fields, opaque to the core
(`extra : σ`). -/
structure Operator (σ ε : Type) where
  size : OperatorSize
  apply : Tensor → Except ε Tensor
  extra : σ

/-- Model of `numpy.ndarray.T` for a list-of-rows matrix: for an `n × k` input
(rows of length `k`), the `k × n` matrix whose row `j` is column `j` of
the input. -/
def transposeMat : Mat → Mat
  | [] => []
  | r :: rs =>
      (List.range r.length).map (fun j => (r :: rs).map (fun row => row.getD j 0))

/-- The `init_vec` argument of `lanczos`: `None` is `Option.none`; a
supplied value is either a torch tensor (possibly on the accelerator) or
already a host array. -/
inductive InitVec where
  | tensor (t : Tensor) : InitVec
  | array (v : Vec) : InitVec
deriving DecidableEq, Repr

/-- The keyword arguments of `lanczos`, with the source's defaults. -/
structure Args where
  num_eigenthings : Int := 10
  which : String := "LM"
  max_steps : Int := 20
  tol : ℚ := 1 / 1000000
  num_lanczos_vectors : Option Int := none
  init_vec : Option InitVec := none
  use_gpu : Bool := false
  fp16 : Bool := false

/-- Observable events emitted by one `lanczos` run: the non-fatal
basis-vector advisory (`warnings.warn`, lines 63–66), a draw of a fresh
random vector of the given length (`np.random.rand`, line 81), and an
invocation of the operator adapter `_scipy_apply` on a probe vector. -/
inductive Event where
  | warnAdvisory : Event
  | randomDraw (len : Nat) : Event
  | applyCall (x : Vec) : Event
deriving DecidableEq, Repr

/-- The argument record passed to the external solver `eigsh`
(lanczos.py lines 87–94): everything except the callback itself. -/
structure SolverCall where
  shape : Int × Int
  k : Int
  which : String
  maxiter : Int
  tol : ℚ
  ncv : Int
  return_eigenvectors : Bool
deriving DecidableEq, Repr

/-- The external restarted-Krylov eigensolver, abstracted: given the
call arguments it decides how many times to invoke the matrix-vector
callback, which probe vector to feed next given the responses so far,
and how to turn the collected responses into the eigenvalue array and
the column-major (`n × k`) eigenvector matrix. -/
structure Solver where
  numCalls : SolverCall → Nat
  nextProbe : SolverCall → List Vec → Vec
  finish : SolverCall → List Vec → Vec × Mat

/-- The adapter `_scipy_apply` (lanczos.py lines 68–76): bridge the host array to
the operator's tensor form, invoke `apply` (any exception propagates
unchanged), bridge the result back to a host array. -/
def scipyApply {σ ε : Type} (op : Operator σ ε) (use_gpu fp16 : Bool)
    (x : Vec) : Except ε Vec := do
  let out ← op.apply (to_operator_form x use_gpu fp16)
  pure (to_host_form out fp16)

/-- Run the abstract solver against a callback, accumulating the
responses and logging one `applyCall` event per callback invocation.  An
exception raised by the callback aborts the whole run. -/
def runSolverTraced {ε : Type} (s : Solver) (c : SolverCall)
    (cb : Vec → Except ε Vec) :
    Nat → List Vec → List Event → Except ε (Vec × Mat) × List Event
  | 0, responses, evs => (Except.ok (s.finish c responses), evs)
  | fuel + 1, responses, evs =>
      let x := s.nextProbe c responses
      match cb x with
      | Except.error e => (Except.error e, evs ++ [Event.applyCall x])
      | Except.ok r =>
          runSolverTraced s c cb fuel (responses ++ [r]) (evs ++ [Event.applyCall x])

/-- The exceptions that can escape `lanczos`: the `TypeError` /
`IndexError` from an unusable `size` attribute (the spec's
`InvalidOperatorShape` condition), or an exception raised by the
operator's own `apply`, carried intact. -/
inductive LanczosErr (ε : Type) where
  | invalidOperatorShape : LanczosErr ε
  | operatorFailure (e : ε) : LanczosErr ε
deriving DecidableEq, Repr

/-- Lines 61–62: the auxiliary basis-vector count, supplied or derived
as `min(2 * num_eigenthings, size - 1)`. -/
def deriveNcv (a : Args) (size : Int) : Int :=
  a.num_lanczos_vectors.getD (min (2 * a.num_eigenthings) (size - 1))

/-- The argument record `lanczos` passes to `eigsh` (lines 87–94). -/
def mkSolverCall (size : Int) (a : Args) : SolverCall :=
  { shape := (size, size)
    k := a.num_eigenthings
    which := a.which
    maxiter := a.max_steps
    tol := a.tol
    ncv := deriveNcv a size
    return_eigenvectors := true }

/-- Lines 80–83, before the precision cast: the raw initial vector —
a fresh uniform random vector of length `size` when none is supplied
(one draw of the random source per entry), `.cpu().numpy()` of a
supplied tensor, a supplied array as-is. -/
def rawInitVec (rng : Nat → ℚ) (size : Int) : Option InitVec → Vec
  | none => (List.range size.toNat).map rng
  | some (InitVec.tensor t) => t.toCpu.data
  | some (InitVec.array v) => v

/-- The observable outcome of one `lanczos` run: the returned pair or
escaping exception, the event trace, the argument record passed to the
external solver (`none` when the run failed before reaching it), and
the value of the local `init_vec` variable at the point of the solver
call (`none` likewise). -/
structure Outcome (ε : Type) where
  result : Except (LanczosErr ε) (Vec × Mat)
  trace : List Event
  solverCall : Option SolverCall
  initVecFinal : Option Vec

/-- The `lanczos` driver (lanczos.py lines 11–94), parameterised by the
external solver and the process-wide random source (`rng i` is the
`i`-th value drawn by `np.random.rand`).  Mirrors the source line by
line: resolve the operator size (failing fast when unusable), derive the
basis-vector count and possibly warn, build the `_scipy_apply` adapter,
prepare the initial vector and apply the fp16 policy to it, invoke the
solver, and return the eigenvalues with the transposed eigenvector
matrix. -/
def lanczos {σ ε : Type} (solver : Solver) (rng : Nat → ℚ)
    (op : Operator σ ε) (a : Args) : Outcome ε :=
  match resolveSize op.size with
  | Except.error _ =>
      { result := Except.error LanczosErr.invalidOperatorShape
        trace := []
        solverCall := none
        initVecFinal := none }
  | Except.ok size =>
      let ncv := deriveNcv a size
      let warnEvs := if ncv < 2 * a.num_eigenthings then [Event.warnAdvisory] else []
      let initEvs :=
        match a.init_vec with
        | none => [Event.randomDraw size.toNat]
        | some _ => []
      let initv := maybe_fp16_vec (rawInitVec rng size a.init_vec) a.fp16
      let call := mkSolverCall size a
      match runSolverTraced solver call (scipyApply op a.use_gpu a.fp16)
          (solver.numCalls call) [] [] with
      | (Except.error e, applyEvs) =>
          { result := Except.error (LanczosErr.operatorFailure e)
            trace := warnEvs ++ initEvs ++ applyEvs
            solverCall := some call
            initVecFinal := some initv }
      | (Except.ok (eigenvals, eigenvecs), applyEvs) =>
          { result := Except.ok (eigenvals, transposeMat eigenvecs)
            trace := warnEvs ++ initEvs ++ applyEvs
            solverCall := some call
            initVecFinal := some initv }

/-- Number of operator-adapter invocations recorded in a trace. -/
def countApplyCalls (evs : List Event) : Nat :=
  evs.countP (fun e => match e with | Event.applyCall _ => true | _ => false)

/-- An operator whose `size` attribute is neither an int nor
shape-like. -/
def invalidOp : Operator Unit Unit :=
  { size := OperatorSize.invalid
    apply := fun t => Except.ok t
    extra := () }

/-- A solver instance that never invokes the callback and returns a
fixed answer. -/
def trivialSolver : Solver :=
  { numCalls := fun _ => 0
    nextProbe := fun _ _ => []
    finish := fun _ _ => ([], []) }

/-- A size-3 operator used by the C2 witness. -/
def op3 : Operator Unit Unit :=
  { size := OperatorSize.intSize 3
    apply := fun t => Except.ok t
    extra := () }

/-- A solver instance returning two eigenpairs of a 3-dimensional
operator without probing the callback. -/
def solverC2 : Solver :=
  { numCalls := fun _ => 0
    nextProbe := fun _ _ => []
    finish := fun _ _ => ([3, 5], [[1, 0], [0, 1], [0, 0]]) }

/-- The identity operator with declared integer size `n`. -/
def idOp (n : Int) : Operator Unit Unit :=
  { size := OperatorSize.intSize n
    apply := fun t => Except.ok t
    extra := () }

/-- An operator whose `apply` always raises. -/
def failOp : Operator Unit Unit :=
  { size := OperatorSize.intSize 2
    apply := fun _ => Except.error ()
    extra := () }

/-- A solver instance that probes the callback exactly once. -/
def solverOneProbe : Solver :=
  { numCalls := fun _ => 1
    nextProbe := fun _ _ => [1, 0]
    finish := fun _ _ => ([], []) }

/-- Representability in the 16-bit format is decidable by
evaluation. -/
instance (v : Vec) : Decidable (Fp16Representable v) :=
  inferInstanceAs (Decidable (v.map roundFp16 = v))

/-! ## Helper lemmas -/

/-- Every event the solver run appends to the trace is a callback
invocation: anything in the final trace is either inherited from the
initial trace or an `applyCall`. -/
theorem runSolverTraced_trace_events {ε : Type} (s : Solver) (c : SolverCall)
    (cb : Vec → Except ε Vec) (fuel : Nat) :
    ∀ (responses : List Vec) (evs : List Event) (ev : Event),
      ev ∈ (runSolverTraced s c cb fuel responses evs).2 →
      ev ∈ evs ∨ ∃ x, ev = Event.applyCall x := by
  induction fuel with
  | zero =>
      intro responses evs ev h
      exact Or.inl h
  | succ n ih =>
      intro responses evs ev h
      rw [runSolverTraced] at h
      rcases hc : cb (s.nextProbe c responses) with e | r
      · rw [hc] at h
        simp only [List.mem_append, List.mem_singleton] at h
        rcases h with h | h
        · exact Or.inl h
        · exact Or.inr ⟨_, h⟩
      · rw [hc] at h
        rcases ih _ _ _ h with h' | h'
        · simp only [List.mem_append, List.mem_singleton] at h'
          rcases h' with h' | h'
          · exact Or.inl h'
          · exact Or.inr ⟨_, h'⟩
        · exact Or.inr h'

/-- For a nonempty rectangular `n × k` matrix, the transpose has `k`
rows. -/
theorem transposeMat_length (m : Mat) (k : Nat) (hm : m ≠ [])
    (hrect : ∀ r ∈ m, r.length = k) : (transposeMat m).length = k := by
  cases m with
  | nil => exact absurd rfl hm
  | cons r rs =>
      have hr : r.length = k := hrect r (by simp)
      simp [transposeMat, hr]

/-- Every row of the transpose has as many entries as the original had
rows. -/
theorem transposeMat_row_length (m : Mat) (row : List ℚ)
    (h : row ∈ transposeMat m) : row.length = m.length := by
  cases m with
  | nil => simp [transposeMat] at h
  | cons r rs =>
      simp only [transposeMat, List.mem_map, List.mem_range] at h
      obtain ⟨j, _, rfl⟩ := h
      simp

/-- Row `i` of the transpose of a nonempty rectangular matrix is column
`i` of the original. -/
theorem transposeMat_getD (m : Mat) (k i : Nat) (hm : m ≠ [])
    (hrect : ∀ r ∈ m, r.length = k) (hi : i < k) :
    (transposeMat m).getD i [] = m.map (fun row => row.getD i 0) := by
  cases m with
  | nil => exact absurd rfl hm
  | cons r rs =>
      have hr : r.length = k := hrect r (by simp)
      rw [transposeMat, List.getD_eq_getElem?_getD, List.getElem?_map,
        List.getElem?_range (by omega : i < r.length)]
      rfl

/-- Once the operator size resolves, the external solver is invoked with
exactly the arguments of `mkSolverCall`. -/
theorem lanczos_solverCall_ok {σ ε : Type} (solver : Solver) (rng : Nat → ℚ)
    (op : Operator σ ε) (a : Args) (n : Int)
    (hsize : resolveSize op.size = Except.ok n) :
    (lanczos solver rng op a).solverCall = some (mkSolverCall n a) := by
  unfold lanczos
  rw [hsize]
  rcases hr : runSolverTraced solver (mkSolverCall n a)
      (scipyApply op a.use_gpu a.fp16)
      (solver.numCalls (mkSolverCall n a)) [] [] with ⟨res, evs⟩
  cases res with
  | error e => simp [hr]
  | ok v => rcases v with ⟨vals, vecs⟩; simp [hr]

/-- Once the operator size resolves, the trace is the advisory events,
then the random-draw events, then the solver run's callback events. -/
theorem lanczos_trace_ok {σ ε : Type} (solver : Solver) (rng : Nat → ℚ)
    (op : Operator σ ε) (a : Args) (n : Int)
    (hsize : resolveSize op.size = Except.ok n) :
    (lanczos solver rng op a).trace
      = (if deriveNcv a n < 2 * a.num_eigenthings then [Event.warnAdvisory] else [])
        ++ (match a.init_vec with
            | none => [Event.randomDraw n.toNat]
            | some _ => [])
        ++ (runSolverTraced solver (mkSolverCall n a)
              (scipyApply op a.use_gpu a.fp16)
              (solver.numCalls (mkSolverCall n a)) [] []).2 := by
  unfold lanczos
  rw [hsize]
  rcases hr : runSolverTraced solver (mkSolverCall n a)
      (scipyApply op a.use_gpu a.fp16)
      (solver.numCalls (mkSolverCall n a)) [] [] with ⟨res, evs⟩
  cases res with
  | error e => simp [hr]
  | ok v => rcases v with ⟨vals, vecs⟩; simp [hr]

/-- Once the operator size resolves, the local `init_vec` at the solver
call is the raw initial vector with the fp16 policy applied. -/
theorem lanczos_initVecFinal_ok {σ ε : Type} (solver : Solver) (rng : Nat → ℚ)
    (op : Operator σ ε) (a : Args) (n : Int)
    (hsize : resolveSize op.size = Except.ok n) :
    (lanczos solver rng op a).initVecFinal
      = some (maybe_fp16_vec (rawInitVec rng n a.init_vec) a.fp16) := by
  unfold lanczos
  rw [hsize]
  rcases hr : runSolverTraced solver (mkSolverCall n a)
      (scipyApply op a.use_gpu a.fp16)
      (solver.numCalls (mkSolverCall n a)) [] [] with ⟨res, evs⟩
  cases res with
  | error e => simp [hr]
  | ok v => rcases v with ⟨vals, vecs⟩; simp [hr]

/-! ## Claim theorems -/

/-- C1: for every operator whose declared size is neither an integer
nor a shape-like value with a usable first element, `lanczos` fails with
the `InvalidOperatorShape` condition before any solver work begins
(no solver call is issued) and before any call to the operator's
`apply` (the apply call count of the trace is zero). -/
theorem C1_invalid_size_fails_before_solver {σ ε : Type} (solver : Solver)
    (rng : Nat → ℚ) (op : Operator σ ε) (a : Args)
    (h : resolveSize op.size = Except.error ()) :
    (lanczos solver rng op a).result = Except.error LanczosErr.invalidOperatorShape
    ∧ (lanczos solver rng op a).solverCall = none
    ∧ countApplyCalls (lanczos solver rng op a).trace = 0 := by
  unfold lanczos
  rw [h]
  exact ⟨rfl, rfl, rfl⟩

/-- Witness for C1 at a concrete invalid-size operator. -/
theorem C1_witness :
    resolveSize invalidOp.size = Except.error ()
    ∧ (lanczos trivialSolver (fun _ => 0) invalidOp {}).result
        = Except.error LanczosErr.invalidOperatorShape
    ∧ countApplyCalls (lanczos trivialSolver (fun _ => 0) invalidOp {}).trace = 0 :=
  ⟨rfl,
   (C1_invalid_size_fails_before_solver trivialSolver (fun _ => 0) invalidOp {} rfl).1,
   (C1_invalid_size_fails_before_solver trivialSolver (fun _ => 0) invalidOp {} rfl).2.2⟩

/-- C2: whenever the external solver returns `k` eigenvalues and an
`n × k` eigenvector matrix (one eigenvector per column), `lanczos`
returns the eigenvalue array unmodified together with the transposed
eigenvector matrix: `k` rows, each of length `n`, row `i` being column
`i` of the solver's matrix (the eigenvector paired with eigenvalue
`i`). -/
theorem C2_result_shaping {σ ε : Type} (solver : Solver) (rng : Nat → ℚ)
    (op : Operator σ ε) (a : Args) (n : Int) (vals : Vec) (vecs : Mat)
    (evs : List Event)
    (hsize : resolveSize op.size = Except.ok n)
    (hrun : runSolverTraced solver (mkSolverCall n a)
        (scipyApply op a.use_gpu a.fp16)
        (solver.numCalls (mkSolverCall n a)) [] []
      = (Except.ok (vals, vecs), evs))
    (hk : vals.length = a.num_eigenthings.toNat)
    (hn : vecs.length = n.toNat)
    (hne : vecs ≠ [])
    (hrect : ∀ r ∈ vecs, r.length = vals.length) :
    (lanczos solver rng op a).result = Except.ok (vals, transposeMat vecs)
    ∧ (transposeMat vecs).length = a.num_eigenthings.toNat
    ∧ (∀ row ∈ transposeMat vecs, row.length = n.toNat)
    ∧ ∀ i, i < vals.length →
        (transposeMat vecs).getD i [] = vecs.map (fun row => row.getD i 0) := by
  refine ⟨?_, (transposeMat_length vecs vals.length hne hrect).trans hk,
    fun row hrow => (transposeMat_row_length vecs row hrow).trans hn,
    fun i hi => transposeMat_getD vecs vals.length i hne hrect hi⟩
  unfold lanczos
  rw [hsize]
  simp [hrun]

/-- Witness for C2 at a concrete solver answer: eigenvalues pass
through, the `3 × 2` column-major matrix comes back as `2` rows of
length `3`. -/
theorem C2_witness :
    (lanczos solverC2 (fun _ => 0) op3 { num_eigenthings := 2 }).result
      = Except.ok (([3, 5] : Vec), transposeMat [[1, 0], [0, 1], [0, 0]])
    ∧ (transposeMat [[1, 0], [0, 1], [0, 0]]).length = (2 : Int).toNat :=
  ⟨(C2_result_shaping solverC2 (fun _ => 0) op3 { num_eigenthings := 2 } 3
      [3, 5] [[1, 0], [0, 1], [0, 0]] [] rfl rfl (by decide) (by decide)
      (by decide) (by decide)).1,
   (C2_result_shaping solverC2 (fun _ => 0) op3 { num_eigenthings := 2 } 3
      [3, 5] [[1, 0], [0, 1], [0, 0]] [] rfl rfl (by decide) (by decide)
      (by decide) (by decide)).2.1⟩

/-- C3: when `num_lanczos_vectors` is not supplied, `lanczos` invokes
the solver with the basis-vector count set to
`min(2 * num_eigenthings, size - 1)`. -/
theorem C3_default_ncv_derivation {σ ε : Type} (solver : Solver)
    (rng : Nat → ℚ) (op : Operator σ ε) (a : Args) (n : Int)
    (hsize : resolveSize op.size = Except.ok n)
    (hnone : a.num_lanczos_vectors = none) :
    (lanczos solver rng op a).solverCall = some (mkSolverCall n a)
    ∧ (mkSolverCall n a).ncv = min (2 * a.num_eigenthings) (n - 1) := by
  refine ⟨lanczos_solverCall_ok solver rng op a n hsize, ?_⟩
  simp [mkSolverCall, deriveNcv, hnone]

/-- Witness for C3: size 10, 3 requested eigenpairs, derived count
`min(6, 9) = 6` reaches the solver call. -/
theorem C3_witness :
    (lanczos trivialSolver (fun _ => 0) (idOp 10)
        { num_eigenthings := 3 }).solverCall
      = some (mkSolverCall 10 { num_eigenthings := 3 })
    ∧ (mkSolverCall 10 ({ num_eigenthings := 3 } : Args)).ncv = 6 :=
  ⟨(C3_default_ncv_derivation trivialSolver (fun _ => 0) (idOp 10)
      { num_eigenthings := 3 } 10 rfl rfl).1,
   ((C3_default_ncv_derivation trivialSolver (fun _ => 0) (idOp 10)
      { num_eigenthings := 3 } 10 rfl rfl).2).trans (by decide)⟩

/-- C4: the non-fatal basis-vector advisory is emitted exactly when the
supplied-or-derived `num_lanczos_vectors` is strictly below
`2 * num_eigenthings`; in every case the solver is still invoked, for
exactly the requested number of eigenpairs and with that
supplied-or-derived basis-vector count. -/
theorem C4_advisory_iff_below_twice {σ ε : Type} (solver : Solver)
    (rng : Nat → ℚ) (op : Operator σ ε) (a : Args) (n : Int)
    (hsize : resolveSize op.size = Except.ok n) :
    (Event.warnAdvisory ∈ (lanczos solver rng op a).trace
      ↔ deriveNcv a n < 2 * a.num_eigenthings)
    ∧ (lanczos solver rng op a).solverCall = some (mkSolverCall n a)
    ∧ (mkSolverCall n a).k = a.num_eigenthings
    ∧ (mkSolverCall n a).ncv = deriveNcv a n := by
  refine ⟨?_, lanczos_solverCall_ok solver rng op a n hsize, rfl, rfl⟩
  rw [lanczos_trace_ok solver rng op a n hsize]
  constructor
  · intro h
    by_contra hlt
    rw [if_neg hlt] at h
    simp only [List.nil_append, List.mem_append] at h
    rcases h with h | h
    · rcases ha : a.init_vec with _ | iv
      · rw [ha] at h; simp at h
      · rw [ha] at h; simp at h
    · rcases runSolverTraced_trace_events solver (mkSolverCall n a)
          (scipyApply op a.use_gpu a.fp16)
          (solver.numCalls (mkSolverCall n a)) [] [] Event.warnAdvisory h with
        h' | ⟨x, h'⟩
      · simp at h'
      · exact absurd h' (by simp)
  · intro h
    rw [if_pos h]
    simp

/-- Witness for C4, both directions: with size 20 and the default 10
eigenpairs a supplied count of 19 is below `2 × 10 = 20` and warns,
while a supplied count of exactly 20 does not. -/
theorem C4_witness :
    (Event.warnAdvisory ∈ (lanczos trivialSolver (fun _ => 0) (idOp 21)
        { num_lanczos_vectors := some 19 }).trace
      ↔ deriveNcv { num_lanczos_vectors := some 19 } 21 < 2 * 10)
    ∧ (Event.warnAdvisory ∈ (lanczos trivialSolver (fun _ => 0) (idOp 21)
        { num_lanczos_vectors := some 20 }).trace
      ↔ deriveNcv { num_lanczos_vectors := some 20 } 21 < 2 * 10) :=
  ⟨(C4_advisory_iff_below_twice trivialSolver (fun _ => 0) (idOp 21)
      { num_lanczos_vectors := some 19 } 21 rfl).1,
   (C4_advisory_iff_below_twice trivialSolver (fun _ => 0) (idOp 21)
      { num_lanczos_vectors := some 20 } 21 rfl).1⟩

/-- C5: converting a host array to operator form (array to tensor,
optional reduced-precision cast, optional device placement) and back to
host form reproduces the original values exactly under full precision;
under reduced precision the result is the doubly-applied 16-bit cast of
the input, so the values are reproduced exactly whenever they are
representable in the 16-bit format, and only up to that format's
precision otherwise. -/
theorem C5_bridge_roundtrip (x : Vec) (use_gpu : Bool) :
    to_host_form (to_operator_form x use_gpu false) false = x
    ∧ to_host_form (to_operator_form x use_gpu true) true
        = (x.map roundFp16).map roundFp16
    ∧ (Fp16Representable x →
        to_host_form (to_operator_form x use_gpu true) true = x) := by
  refine ⟨by cases use_gpu <;> rfl, by cases use_gpu <;> rfl, ?_⟩
  intro h
  have h' : x.map roundFp16 = x := h
  have h2 : to_host_form (to_operator_form x use_gpu true) true
      = (x.map roundFp16).map roundFp16 := by cases use_gpu <;> rfl
  rw [h2, h', h']

/-- Witness for C5: a full-precision round trip through the gpu path is
the identity, and a vector of 16-bit-representable values survives the
reduced-precision round trip exactly. -/
theorem C5_witness :
    to_host_form (to_operator_form [1, mkRat 3 2, mkRat 1 3] true false) false
      = ([1, mkRat 3 2, mkRat 1 3] : Vec)
    ∧ Fp16Representable [1, mkRat 3 2]
    ∧ to_host_form (to_operator_form [1, mkRat 3 2] true true) true
        = ([1, mkRat 3 2] : Vec) :=
  ⟨(C5_bridge_roundtrip [1, mkRat 3 2, mkRat 1 3] true).1,
   by decide,
   (C5_bridge_roundtrip [1, mkRat 3 2] true).2.2 (by decide)⟩

/-- C6: an exception raised by the wrapped operator's `apply` is
propagated unchanged by the adapter callback (no catching, wrapping or
retry), and when the solver run aborts with it the whole `lanczos`
computation aborts with that same original exception. -/
theorem C6_apply_exception_propagates {σ ε : Type} (op : Operator σ ε)
    (use_gpu fp16 : Bool) (x : Vec) (e : ε)
    (h : op.apply (to_operator_form x use_gpu fp16) = Except.error e) :
    scipyApply op use_gpu fp16 x = Except.error e
    ∧ ∀ (solver : Solver) (rng : Nat → ℚ) (a : Args) (n : Int) (evs : List Event),
        resolveSize op.size = Except.ok n →
        runSolverTraced solver (mkSolverCall n a)
            (scipyApply op a.use_gpu a.fp16)
            (solver.numCalls (mkSolverCall n a)) [] []
          = (Except.error e, evs) →
        (lanczos solver rng op a).result
          = Except.error (LanczosErr.operatorFailure e) := by
  constructor
  · simp [scipyApply, h]
  · intro solver rng a n evs hsize hrun
    unfold lanczos
    rw [hsize]
    simp [hrun]

/-- Witness for C6: an always-raising operator aborts the adapter and
the whole run with its own exception. -/
theorem C6_witness :
    scipyApply failOp false false [1, 0] = Except.error ()
    ∧ (lanczos solverOneProbe (fun _ => 0) failOp {}).result
        = Except.error (LanczosErr.operatorFailure ()) :=
  ⟨(C6_apply_exception_propagates failOp false false [1, 0] () rfl).1,
   (C6_apply_exception_propagates failOp false false [1, 0] () rfl).2
      solverOneProbe (fun _ => 0) {} 2 [Event.applyCall [1, 0]] rfl rfl⟩

/-- C7: if `init_vec` is `None`, `lanczos` draws an initial vector from
the random source, one fresh draw per entry, with length equal to the
operator size (and the draw is recorded in the trace); if `init_vec` is
a supplied tensor it is converted to the host array representation; in
all cases the fp16 precision policy of the iteration vectors is applied
to the initial vector before the point of the solver call. -/
theorem C7_init_vec_handling {σ ε : Type} (solver : Solver) (rng : Nat → ℚ)
    (op : Operator σ ε) (a : Args) (n : Int)
    (hsize : resolveSize op.size = Except.ok n) :
    (lanczos solver rng op a).initVecFinal
      = some (maybe_fp16_vec (rawInitVec rng n a.init_vec) a.fp16)
    ∧ (a.init_vec = none →
        rawInitVec rng n a.init_vec = (List.range n.toNat).map rng
        ∧ (rawInitVec rng n a.init_vec).length = n.toNat
        ∧ Event.randomDraw n.toNat ∈ (lanczos solver rng op a).trace)
    ∧ ∀ t, a.init_vec = some (InitVec.tensor t) →
        rawInitVec rng n a.init_vec = t.toCpu.data := by
  refine ⟨lanczos_initVecFinal_ok solver rng op a n hsize, ?_, ?_⟩
  · intro hnone
    refine ⟨by rw [hnone]; rfl, by rw [hnone]; simp [rawInitVec], ?_⟩
    rw [lanczos_trace_ok solver rng op a n hsize, hnone]
    simp
  · intro t ht
    rw [ht]
    rfl

/-- Witness for C7 at a size-3 operator with no supplied initial vector
and full precision: the prepared vector is the three fresh draws, and
the draw is in the trace. -/
theorem C7_witness :
    (lanczos trivialSolver (fun i => (i : ℚ)) (idOp 3) {}).initVecFinal
      = some (maybe_fp16_vec (rawInitVec (fun i => (i : ℚ)) 3 none) false)
    ∧ Event.randomDraw (3 : Int).toNat
        ∈ (lanczos trivialSolver (fun i => (i : ℚ)) (idOp 3) {}).trace :=
  ⟨(C7_init_vec_handling trivialSolver (fun i => (i : ℚ)) (idOp 3) {} 3 rfl).1,
   ((C7_init_vec_handling trivialSolver (fun i => (i : ℚ)) (idOp 3) {} 3
      rfl).2.1 rfl).2.2⟩

/-- C8: `lanczos` never mutates the caller-supplied operator: it reads
only the `size` field and invokes only the `apply` operation, so its
entire observable outcome is unchanged when every other field of the
operator (here the opaque `extra` component, of arbitrary type) is
replaced, and the operator value itself — a pure record the core never
writes to — is the same after the call as before it. -/
theorem C8_operator_not_mutated {σ₁ σ₂ ε : Type} (solver : Solver)
    (rng : Nat → ℚ) (sz : OperatorSize) (ap : Tensor → Except ε Tensor)
    (x₁ : σ₁) (x₂ : σ₂) (a : Args) :
    lanczos solver rng { size := sz, apply := ap, extra := x₁ } a
      = lanczos solver rng { size := sz, apply := ap, extra := x₂ } a := rfl

/-- C9: when `num_lanczos_vectors` is unset and the operator size is at
most `2 * num_eigenthings`, the derived count is `size - 1`, which is
strictly below `2 * num_eigenthings`, so the advisory fires even though
the caller supplied no basis-vector count at all. -/
theorem C9_derived_default_triggers_advisory {σ ε : Type} (solver : Solver)
    (rng : Nat → ℚ) (op : Operator σ ε) (a : Args) (n : Int)
    (hsize : resolveSize op.size = Except.ok n)
    (hnone : a.num_lanczos_vectors = none)
    (hsmall : n ≤ 2 * a.num_eigenthings) :
    deriveNcv a n = n - 1
    ∧ n - 1 < 2 * a.num_eigenthings
    ∧ Event.warnAdvisory ∈ (lanczos solver rng op a).trace := by
  have hd : deriveNcv a n = n - 1 := by
    simp only [deriveNcv, hnone, Option.getD_none]
    omega
  refine ⟨hd, by omega, ?_⟩
  rw [lanczos_trace_ok solver rng op a n hsize,
    if_pos (show deriveNcv a n < 2 * a.num_eigenthings by rw [hd]; omega)]
  simp

/-- Witness for C9: size 4 with 2 requested eigenpairs derives a count
of 3, below 4, and the advisory is in the trace. -/
theorem C9_witness :
    deriveNcv { num_eigenthings := 2 } 4 = 4 - 1
    ∧ (4 : Int) - 1 < 2 * 2
    ∧ Event.warnAdvisory ∈ (lanczos trivialSolver (fun _ => 0) (idOp 4)
        { num_eigenthings := 2 }).trace :=
  ⟨(C9_derived_default_triggers_advisory trivialSolver (fun _ => 0) (idOp 4)
      { num_eigenthings := 2 } 4 rfl rfl (by decide)).1,
   by decide,
   (C9_derived_default_triggers_advisory trivialSolver (fun _ => 0) (idOp 4)
      { num_eigenthings := 2 } 4 rfl rfl (by decide)).2.2⟩

/-- C10: when `init_vec` is supplied, `lanczos` draws nothing from the
random source: the whole observable outcome is identical for any two
random sources (so two runs with identical arguments and a deterministic
operator coincide), and no random-draw event appears in the trace. -/
theorem C10_supplied_init_vec_deterministic {σ ε : Type} (solver : Solver)
    (rng₁ rng₂ : Nat → ℚ) (op : Operator σ ε) (a : Args) (iv : InitVec)
    (hiv : a.init_vec = some iv) :
    lanczos solver rng₁ op a = lanczos solver rng₂ op a
    ∧ ∀ m, Event.randomDraw m ∉ (lanczos solver rng₁ op a).trace := by
  constructor
  · unfold lanczos
    cases hs : resolveSize op.size with
    | error u => rfl
    | ok n =>
        rw [hiv]
        cases iv <;> rfl
  · intro m
    cases hs : resolveSize op.size with
    | error u =>
        unfold lanczos
        rw [hs]
        simp
    | ok n =>
        rw [lanczos_trace_ok solver rng₁ op a n hs, hiv]
        intro hm
        simp only [List.mem_append] at hm
        rcases hm with (hmA | hmB) | hmC
        · rcases Decidable.em (deriveNcv a n < 2 * a.num_eigenthings) with hc | hc
          · rw [if_pos hc] at hmA; simp at hmA
          · rw [if_neg hc] at hmA; simp at hmA
        · simp at hmB
        · rcases runSolverTraced_trace_events solver (mkSolverCall n a)
              (scipyApply op a.use_gpu a.fp16)
              (solver.numCalls (mkSolverCall n a)) [] [] (Event.randomDraw m) hmC with
            h' | ⟨y, h'⟩
          · simp at h'
          · exact absurd h' (by simp)

/-- Witness for C10: with a supplied host-array initial vector, two runs
under different random sources coincide and the trace holds no random
draw. -/
theorem C10_witness :
    lanczos trivialSolver (fun _ => 0) (idOp 3)
        { init_vec := some (InitVec.array [2, 3, 4]) }
      = lanczos trivialSolver (fun i => (i : ℚ) + 7) (idOp 3)
        { init_vec := some (InitVec.array [2, 3, 4]) }
    ∧ Event.randomDraw 3
        ∉ (lanczos trivialSolver (fun _ => 0) (idOp 3)
            { init_vec := some (InitVec.array [2, 3, 4]) }).trace :=
  ⟨(C10_supplied_init_vec_deterministic trivialSolver (fun _ => 0)
      (fun i => (i : ℚ) + 7) (idOp 3)
      { init_vec := some (InitVec.array [2, 3, 4]) }
      (InitVec.array [2, 3, 4]) rfl).1,
   (C10_supplied_init_vec_deterministic trivialSolver (fun _ => 0)
      (fun i => (i : ℚ) + 7) (idOp 3)
      { init_vec := some (InitVec.array [2, 3, 4]) }
      (InitVec.array [2, 3, 4]) rfl).2 3⟩

end HessianEigenthings
